import Mathlib

/-
  Verification of django-s3-storage (django_s3_storage/storage.py) against its
  natural-language specification.

  The development shallowly embeds the pure logic of the storage backend:
  byte bodies are lists of byte values, S3 requests and responses are records,
  and the external gzip / urljoin / presign collaborators are parameters of the
  embedded functions.  All definitions are translated from storage.py; line
  numbers in comments refer to that file.  Python string primitives
  (startswith, split, lower, ...) are re-implemented on lists of characters so
  that every definition evaluates by kernel reduction.
-/

namespace DjangoS3

/-- Byte strings (file bodies) are modelled as lists of byte values. -/
abbrev Bytes := List Nat

/- ---------------------------------------------------------------------------
   Python string primitives, modelled on lists of characters.
--------------------------------------------------------------------------- -/

/-- Python str.startswith. -/
def strStartsWith (s p : String) : Bool := List.isPrefixOf p.toList s.toList

/-- Python str.endswith. -/
def strEndsWith (s p : String) : Bool := List.isSuffixOf p.toList s.toList

/-- Python membership test of a character in a string. -/
def strContainsChar (s : String) (c : Char) : Bool := s.toList.contains c

/-- Python str.lower, restricted to the ASCII case mapping. -/
def strLower (s : String) : String := String.mk (s.toList.map Char.toLower)

/-- Python s[1:]. -/
def strDrop1 (s : String) : String := String.mk (s.toList.drop 1)

/-- Split a character list on a separator character; always returns at least
one (possibly empty) piece, like Python str.split(sep). -/
def splitCharAux (c : Char) : List Char → List (List Char)
  | [] => [[]]
  | x :: xs =>
    match splitCharAux c xs with
    | [] => [[]]
    | y :: ys => if x == c then [] :: y :: ys else (x :: y) :: ys

/-- Python str.split(sep) for a one-character separator. -/
def strSplitChar (c : Char) (s : String) : List String :=
  (splitCharAux c s.toList).map String.mk

/-- Python int(s) for a decimal string, possibly with a leading minus sign;
returns none where Python raises ValueError. -/
def parseNatDigits (l : List Char) : Option Nat :=
  if l.isEmpty then none
  else
    l.foldl
      (fun acc c =>
        match acc with
        | none => none
        | some n => if c.isDigit then some (n * 10 + (c.toNat - 48)) else none)
      (some 0)

def pyInt (s : String) : Option Int :=
  match s.toList with
  | '-' :: rest => (parseNatDigits rest).map fun n => -(n : Int)
  | l => (parseNatDigits l).map fun n => (n : Int)

/- ---------------------------------------------------------------------------
   Settings (storage.py lines 137-162, default_auth_settings / default_s3_settings)

   Only the settings that the embedded operations consult are modelled.
   Possibly-callable settings (AWS_S3_CONTENT_DISPOSITION, AWS_S3_CONTENT_LANGUAGE
   and the values of AWS_S3_METADATA) are modelled as functions from the file
   name, matching _callable_setting (line 48): a fixed string setting is the
   constant function.
--------------------------------------------------------------------------- -/

/-- AWS_S3_ENCRYPT_KEY may be a bool or a string in Python (storage.py line 270
checks isinstance(..., str)). -/
inductive EncryptKeySetting where
  | ofBool (b : Bool)
  | ofStr (s : String)

/-- Python truthiness of the AWS_S3_ENCRYPT_KEY setting (line 269). -/
def EncryptKeySetting.truthy : EncryptKeySetting → Bool
  | .ofBool b => b
  | .ofStr s => s != ""

structure StorageSettings where
  AWS_S3_BUCKET_NAME : String := ""
  /-- AWS_S3_KEY_PREFIX (identifier shortened in the model). -/
  keyPfx : String := ""
  AWS_S3_BUCKET_AUTH : Bool := true
  AWS_S3_MAX_AGE_SECONDS : Nat := 3600
  AWS_S3_PUBLIC_URL : String := ""
  AWS_S3_REDUCED_REDUNDANCY : Bool := false
  AWS_S3_CONTENT_DISPOSITION : String → String := fun _ => ""
  AWS_S3_CONTENT_LANGUAGE : String → String := fun _ => ""
  AWS_S3_METADATA : List (String × (String → String)) := []
  AWS_S3_ENCRYPT_KEY : EncryptKeySetting := .ofBool false
  AWS_S3_KMS_ENCRYPTION_KEY_ID : String := ""
  AWS_S3_GZIP : Bool := true

/- ---------------------------------------------------------------------------
   Key mapper (storage.py lines 52-57 and 232-235)
--------------------------------------------------------------------------- -/

/-- _to_posix_path (line 56): name.replace(os.sep, "/").  On the POSIX platform
being modelled, os.sep = "/" and the replacement is the identity. -/
def to_posix_path (name : String) : String := name

/-- posixpath.join for two arguments, as in CPython: if the second part is
absolute it replaces the accumulated path; otherwise it is appended with a
separator unless one is already present. -/
def posix_join (a b : String) : String :=
  if strStartsWith b "/" then b
  else if a == "" || strEndsWith a "/" then a ++ b
  else a ++ "/" ++ b

/-- One step of posixpath.normpath component processing: skip empty and dot
components; append a component unless it is a poppable ".."; pop on ".." when
possible. -/
def normpathStep (initialSlashes : Nat) (acc : List String) (comp : String) : List String :=
  if comp == "" || comp == "." then acc
  else if comp != ".." || (initialSlashes == 0 && acc.isEmpty) ||
      (!acc.isEmpty && acc.getLast? == some "..") then
    acc ++ [comp]
  else if !acc.isEmpty then acc.dropLast
  else acc

/-- posixpath.normpath, as in CPython: collapse empty and "." components,
resolve ".." lexically, preserve one or exactly two leading slashes. -/
def posix_normpath (path : String) : String :=
  if path == "" then "."
  else
    let initialSlashes : Nat :=
      if strStartsWith path "/" then
        if strStartsWith path "//" && !strStartsWith path "///" then 2 else 1
      else 0
    let comps := strSplitChar '/' path
    let newComps := comps.foldl (normpathStep initialSlashes) []
    let out := String.mk (List.replicate initialSlashes '/') ++ String.intercalate "/" newComps
    if out == "" then "." else out

/-- S3Storage._get_key_name (lines 232-235): strip one leading slash from the
logical name, convert to a posix path, join with the configured key namespace
and normalize. -/
def get_key_name (keyPfx name : String) : String :=
  let name1 := if strStartsWith name "/" then strDrop1 name else name
  posix_normpath (posix_join keyPfx (to_posix_path name1))

/-- The key resolution pipeline as worded by the spec (section 4.1): strip one
leading slash from the name, convert platform separators to "/", join with the
namespace, then apply POSIX path normalization. -/
def specResolve (keyPfx name : String) : String :=
  let stripped := if strStartsWith name "/" then strDrop1 name else name
  let posixName := to_posix_path stripped
  posix_normpath (posix_join keyPfx posixName)

/- ---------------------------------------------------------------------------
   Metadata builder (storage.py lines 237-277)
--------------------------------------------------------------------------- -/

/-- The parameter set assembled for an S3 put or copy request
(_object_params plus _object_put_params). -/
structure PutParams where
  Bucket : String
  Key : String
  ACL : String
  CacheControl : String
  Metadata : List (String × String)
  StorageClass : String
  ContentDisposition : Option String := none
  ContentLanguage : Option String := none
  ServerSideEncryption : Option String := none
  SSEKMSKeyId : Option String := none
  ContentType : Option String := none
  ContentEncoding : Option String := none

/-- Python dict assignment d[k] = v on a metadata map: replace the value of an
existing key, otherwise append the pair. -/
def setMeta (m : List (String × String)) (k v : String) : List (String × String) :=
  if m.any (fun p => p.1 == k) then
    m.map (fun p => if p.1 == k then (p.1, v) else p)
  else m ++ [(k, v)]

/-- S3Storage._object_put_params (lines 244-277) combined with _object_params
(lines 237-242). -/
def object_put_params (cfg : StorageSettings) (name : String) : PutParams :=
  let content_disposition := cfg.AWS_S3_CONTENT_DISPOSITION name
  let content_langauge := cfg.AWS_S3_CONTENT_LANGUAGE name
  { Bucket := cfg.AWS_S3_BUCKET_NAME
    Key := get_key_name cfg.keyPfx name
    ACL := if cfg.AWS_S3_BUCKET_AUTH then "private" else "public-read"
    CacheControl :=
      (if cfg.AWS_S3_BUCKET_AUTH then "private" else "public") ++
        ",max-age=" ++ toString cfg.AWS_S3_MAX_AGE_SECONDS
    Metadata := cfg.AWS_S3_METADATA.map (fun kv => (kv.1, kv.2 name))
    StorageClass := if cfg.AWS_S3_REDUCED_REDUNDANCY then "REDUCED_REDUNDANCY" else "STANDARD"
    ContentDisposition := if content_disposition != "" then some content_disposition else none
    ContentLanguage := if content_langauge != "" then some content_langauge else none
    ServerSideEncryption :=
      if cfg.AWS_S3_ENCRYPT_KEY.truthy then
        match cfg.AWS_S3_ENCRYPT_KEY with
        | .ofStr s => some s
        | .ofBool _ => some "AES256"
      else none
    SSEKMSKeyId :=
      if cfg.AWS_S3_ENCRYPT_KEY.truthy then
        match cfg.AWS_S3_ENCRYPT_KEY with
        | .ofStr _ =>
          if cfg.AWS_S3_KMS_ENCRYPTION_KEY_ID != "" then
            some cfg.AWS_S3_KMS_ENCRYPTION_KEY_ID
          else none
        | .ofBool _ => none
      else none }

/- ---------------------------------------------------------------------------
   Content classifier and write path (storage.py lines 299-353)
--------------------------------------------------------------------------- -/

/-- The compressibility test of _save (lines 321-323): family "text", or the
subtype after stripping any "+"-prefixed structured-syntax part in one of the
four listed values.  Python unpacks exactly two components from the split on
"/"; a content type without exactly one slash would raise there, and the match
falls back to false for such malformed inputs, which mimetypes never produces. -/
def isCompressibleContentType (content_type : String) : Bool :=
  match strSplitChar '/' (strLower content_type) with
  | [content_type_family, sub0] =>
    let content_type_subtype := (strSplitChar '+' sub0).getLastD ""
    content_type_family == "text" ||
      (content_type_subtype == "xml" || content_type_subtype == "json" ||
        content_type_subtype == "html" || content_type_subtype == "javascript")
  | _ => false

/-- mimetypes.guess_type result defaulted as in line 316:
content_type or "application/octet-stream". -/
def resolveContentType (guessed : Option String) : String :=
  match guessed with
  | some s => if s != "" then s else "application/octet-stream"
  | none => "application/octet-stream"

/-- The state uploaded to the backend by _save: the final request parameters,
the uploaded bytes, and the stream offset from which the upload reads. -/
structure PutResult where
  params : PutParams
  body : Bytes
  bodyPos : Nat

/-- S3Storage._save (lines 299-353), for binary content.  The gzip library is
passed in as the function gz from the original bytes to the complete gzip
stream written through GzipFile at compression level 9 (header, deflate data
and trailer, as measured by temp_file.tell() after close).  The guessed
content type stands for mimetypes.guess_type(name, strict=False)[0].
content.tell() after the copy into the gzip writer equals the length of the
original bytes, since the stream was rewound to 0 at line 305. -/
def s3_save (cfg : StorageSettings) (gz : Bytes → Bytes) (guessed : Option String)
    (name : String) (body : Bytes) : PutResult :=
  let put0 := object_put_params cfg name
  let content_type := resolveContentType guessed
  let put1 := { put0 with ContentType := some content_type }
  if cfg.AWS_S3_GZIP && isCompressibleContentType content_type then
    let gzBody := gz body
    let orig_size := body.length
    if gzBody.length < orig_size then
      { params :=
          { put1 with
            ContentEncoding := some "gzip"
            Metadata := setMeta put1.Metadata "uncompressed_size" (toString orig_size) }
        body := gzBody
        bodyPos := 0 }
    else
      { params := put1, body := body, bodyPos := 0 }
  else
    { params := put1, body := body, bodyPos := 0 }

/- ---------------------------------------------------------------------------
   Backend-side stored objects
--------------------------------------------------------------------------- -/

/-- A stored S3 object: body bytes plus the headers the backend reports back.
Optional headers are absent (none) when they were never set; the backend never
reports a present-but-empty header. -/
structure StoredObject where
  body : Bytes
  ContentType : String
  ContentEncoding : Option String
  Metadata : List (String × String)
  ACL : String
  CacheControl : String
  StorageClass : String
  ContentDisposition : Option String
  ContentLanguage : Option String
  ServerSideEncryption : Option String
  SSEKMSKeyId : Option String

/-- The object the backend holds after upload_fileobj of a PutResult
(line 344): the uploaded bytes from the rewound offset with the ExtraArgs
headers. -/
def storedOfPut (r : PutResult) : StoredObject :=
  { body := r.body.drop r.bodyPos
    ContentType := (r.params.ContentType).getD ""
    ContentEncoding := r.params.ContentEncoding
    Metadata := r.params.Metadata
    ACL := r.params.ACL
    CacheControl := r.params.CacheControl
    StorageClass := r.params.StorageClass
    ContentDisposition := r.params.ContentDisposition
    ContentLanguage := r.params.ContentLanguage
    ServerSideEncryption := r.params.ServerSideEncryption
    SSEKMSKeyId := r.params.SSEKMSKeyId }

/- ---------------------------------------------------------------------------
   Read path (storage.py lines 283-297)
--------------------------------------------------------------------------- -/

/-- Errors surfaced by the embedded operations:  valueError models Python
ValueError, fileNotFound models the FileNotFoundError produced by _wrap_errors
for a NoSuchKey response (lines 34-45). -/
inductive PyError where
  | valueError
  | fileNotFound
deriving DecidableEq, Repr

/-- The file handle returned by _open: its readable contents, its stream
position, and whether it can be written. -/
structure OpenedFile where
  contents : Bytes
  pos : Nat
  writable : Bool
deriving DecidableEq, Repr

/-- S3Storage._open (lines 283-297).  The argument obj is the result of
get_object: none when the key is absent (NoSuchKey, translated by
_wrap_errors), some o otherwise.  The gzip library inflate is the parameter
dec.  The body is copied to a temporary file and rewound to offset 0; when the
stored ContentEncoding is "gzip" the returned stream reads the inflated bytes
from position 0. -/
def s3_open (dec : Bytes → Bytes) (mode : String) (obj : Option StoredObject) :
    Except PyError OpenedFile :=
  if mode != "rb" then .error .valueError
  else
    match obj with
    | none => .error .fileNotFound
    | some o =>
      .ok
        { contents := if o.ContentEncoding == some "gzip" then dec o.body else o.body
          pos := 0
          writable := false }

/-- A mode string that requests write access (any of the Python write/append/
create/update mode characters). -/
def isWriteMode (mode : String) : Bool :=
  strContainsChar mode 'w' || strContainsChar mode 'a' ||
    strContainsChar mode '+' || strContainsChar mode 'x'

/- ---------------------------------------------------------------------------
   size (storage.py lines 435-441)
--------------------------------------------------------------------------- -/

/-- The head_object response fields consulted by size(). -/
structure HeadObject where
  ContentEncoding : Option String
  Metadata : List (String × String)
  ContentLength : Nat

/-- S3Storage.size (lines 435-441).  A KeyError from a missing
"ContentEncoding" response key or a missing "uncompressed_size" metadata key
is caught and answered with ContentLength; int() of a malformed metadata value
raises ValueError, which is not caught; and when ContentEncoding is present
but different from "gzip" the function body falls through and returns
Python None, modelled as .ok none. -/
def s3_size (meta : HeadObject) : Except PyError (Option Int) :=
  match meta.ContentEncoding with
  | none => .ok (some meta.ContentLength)
  | some enc =>
    if enc == "gzip" then
      match List.lookup "uncompressed_size" meta.Metadata with
      | some v =>
        match pyInt v with
        | some n => .ok (some n)
        | none => .error .valueError
      | none => .ok (some meta.ContentLength)
    else .ok none

/- ---------------------------------------------------------------------------
   url (storage.py lines 443-464)
--------------------------------------------------------------------------- -/

/-- The outcome of url(): either a join against the public URL override or a
presigned URL obtained from the backend client. -/
inductive UrlResult where
  | publicJoin (u : String)
  | presigned (u : String)
deriving DecidableEq, Repr

/-- S3Storage.url (lines 443-464).  The library collaborators are parameters:
presign stands for generate_presigned_url applied to the combined params and
the expiry, urljoinF for urllib.parse.urljoin, filepathToUri for
django.utils.encoding.filepath_to_uri, and stripQuery for the
urlsplit/urlunsplit round trip that drops the query and fragment. -/
def s3_url (cfg : StorageSettings)
    (presign : List (String × String) → Nat → String)
    (urljoinF : String → String → String)
    (filepathToUri : String → String)
    (stripQuery : String → String)
    (name : String) (extra_params : List (String × String)) :
    Except PyError UrlResult :=
  if cfg.AWS_S3_PUBLIC_URL != "" then
    if !extra_params.isEmpty then .error .valueError
    else .ok (.publicJoin (urljoinF cfg.AWS_S3_PUBLIC_URL (filepathToUri name)))
  else
    let ps := extra_params ++
      [("Bucket", cfg.AWS_S3_BUCKET_NAME), ("Key", get_key_name cfg.keyPfx name)]
    let u := presign ps cfg.AWS_S3_MAX_AGE_SECONDS
    .ok (.presigned (if !cfg.AWS_S3_BUCKET_AUTH then stripQuery u else u))

/- ---------------------------------------------------------------------------
   Metadata sync (storage.py lines 477-514)
--------------------------------------------------------------------------- -/

/-- The per-object step of S3Storage.sync_meta_iter (lines 493-513), applied
to an object whose head_object succeeded: rebuild the put parameters from the
current settings, carry over a truthy existing ContentEncoding and, for a
gzip-encoded object, its recorded uncompressed_size metadata value, then
issue copy_object onto the same key with ContentType preserved and
MetadataDirective REPLACE.  The copy keeps the body bytes and replaces the
headers with the supplied ones. -/
def sync_meta_object (cfg : StorageSettings) (name : String) (obj : StoredObject) :
    StoredObject :=
  let put0 := object_put_params cfg name
  let put1 :=
    match obj.ContentEncoding with
    | some content_encoding =>
      if content_encoding != "" then
        let p := { put0 with ContentEncoding := some content_encoding }
        if content_encoding == "gzip" then
          match List.lookup "uncompressed_size" obj.Metadata with
          | some v => { p with Metadata := setMeta p.Metadata "uncompressed_size" v }
          | none => p
        else p
      else put0
    | none => put0
  { body := obj.body
    ContentType := obj.ContentType
    ContentEncoding := put1.ContentEncoding
    Metadata := put1.Metadata
    ACL := put1.ACL
    CacheControl := put1.CacheControl
    StorageClass := put1.StorageClass
    ContentDisposition := put1.ContentDisposition
    ContentLanguage := put1.ContentLanguage
    ServerSideEncryption := put1.ServerSideEncryption
    SSEKMSKeyId := put1.SSEKMSKeyId }

/- ---------------------------------------------------------------------------
   Settings validation in _setup (storage.py lines 187-197)
--------------------------------------------------------------------------- -/

/-- The settings consulted by the validation step of _setup. -/
structure SetupInput where
  AWS_S3_BUCKET_NAME : String
  AWS_S3_PUBLIC_URL : String
  AWS_S3_BUCKET_AUTH : Bool

/-- The warning logged at lines 190-197. -/
def publicUrlBucketAuthWarning : String :=
  "Using AWS_S3_BUCKET_AUTH with AWS_S3_PUBLIC_URL. Private files on S3 may be inaccessible via the public URL."

/-- The validation step of S3Storage._setup (lines 187-197): an empty bucket
name raises ImproperlyConfigured; a public URL together with bucket auth only
logs a warning; otherwise construction proceeds.  The result is the list of
warnings logged on success. -/
def setup_validate (s : SetupInput) : Except String (List String) :=
  if s.AWS_S3_BUCKET_NAME == "" then
    .error "Setting AWS_S3_BUCKET_NAME is required."
  else if s.AWS_S3_PUBLIC_URL != "" && s.AWS_S3_BUCKET_AUTH then
    .ok [publicUrlBucketAuthWarning]
  else
    .ok []

/- ---------------------------------------------------------------------------
   Concrete instances used by witnesses and counterexamples
--------------------------------------------------------------------------- -/

/-- A storage configuration with every setting at its default (storage.py
lines 144-162) and a bucket name, as _setup requires. -/
def wcfg : StorageSettings := { AWS_S3_BUCKET_NAME := "bucket" }

/-- A configuration whose custom metadata map itself carries the reserved
"uncompressed_size" key. -/
def c3cfg : StorageSettings :=
  { AWS_S3_BUCKET_NAME := "bucket"
    AWS_S3_METADATA := [("uncompressed_size", fun _ => "999")] }

/-- A configuration with the public-URL override enabled. -/
def pubCfg : StorageSettings :=
  { AWS_S3_BUCKET_NAME := "bucket"
    AWS_S3_PUBLIC_URL := "/foo/"
    AWS_S3_BUCKET_AUTH := false }

/-- A gzip-encoded stored object. -/
def syncObjW : StoredObject :=
  { body := [1, 2]
    ContentType := "text/plain"
    ContentEncoding := some "gzip"
    Metadata := [("uncompressed_size", "2")]
    ACL := "private"
    CacheControl := "private,max-age=3600"
    StorageClass := "STANDARD"
    ContentDisposition := none
    ContentLanguage := none
    ServerSideEncryption := none
    SSEKMSKeyId := none }

/- ---------------------------------------------------------------------------
   Helper lemmas about metadata maps
--------------------------------------------------------------------------- -/

theorem lookup_eval_none (name k : String) (l : List (String × (String → String)))
    (h : k ∉ l.map Prod.fst) :
    List.lookup k (l.map fun kv => (kv.1, kv.2 name)) = none := by
  induction l with
  | nil => rfl
  | cons kv tl ih =>
    have hk : k ≠ kv.1 := by
      intro he
      exact h (by simp [he])
    have hk' : (k == kv.1) = false := beq_eq_false_iff_ne.mpr hk
    have htl : k ∉ tl.map Prod.fst := fun hm => h (by simp [hm])
    simp [List.lookup, hk', ih htl]

theorem lookup_none_any_false (k : String) (m : List (String × String))
    (h : List.lookup k m = none) : (m.any fun p => p.1 == k) = false := by
  induction m with
  | nil => rfl
  | cons p tl ih =>
    obtain ⟨k', v'⟩ := p
    by_cases hk : (k == k') = true
    · simp [List.lookup, hk] at h
    · have hk2 : (k' == k) = false := by
        have : k ≠ k' := fun he => hk (beq_iff_eq.mpr he)
        exact beq_eq_false_iff_ne.mpr (Ne.symm this)
      have hk3 : (k == k') = false := Bool.of_not_eq_true hk
      simp only [List.lookup, hk3] at h
      simp only [List.any_cons, hk2, Bool.false_or]
      exact ih h

theorem lookup_append_self (k v : String) (m : List (String × String))
    (h : List.lookup k m = none) : List.lookup k (m ++ [(k, v)]) = some v := by
  induction m with
  | nil => simp [List.lookup]
  | cons p tl ih =>
    obtain ⟨k', v'⟩ := p
    by_cases hk : (k == k') = true
    · simp [List.lookup, hk] at h
    · have hk3 : (k == k') = false := Bool.of_not_eq_true hk
      simp only [List.lookup, hk3] at h
      simp only [List.cons_append, List.lookup, hk3]
      exact ih h

/- ---------------------------------------------------------------------------
   Claim theorems
--------------------------------------------------------------------------- -/

/-- Claim C7: key resolution is a deterministic pure function of the namespace
and the name; any two logical names that are equivalent after stripping one
leading slash, converting platform separators, joining with the namespace and
POSIX path normalization resolve to the identical backend key. -/
theorem resolve_respects_normalization (pfx n₁ n₂ : String)
    (h : specResolve pfx n₁ = specResolve pfx n₂) :
    get_key_name pfx n₁ = get_key_name pfx n₂ := h

/-- Witness for C7 at a concrete equivalent pair: a name with a leading slash
and a dot segment against a name with a resolvable dot-dot segment. -/
theorem resolve_respects_normalization_witness :
    specResolve "static" "/foo/./bar.txt" = specResolve "static" "foo/qux/../bar.txt" ∧
    get_key_name "static" "/foo/./bar.txt" = get_key_name "static" "foo/qux/../bar.txt" :=
  ⟨by decide, resolve_respects_normalization "static" "/foo/./bar.txt" "foo/qux/../bar.txt" (by decide)⟩

/-- Claim C8: the CacheControl header built for a put is exactly
privacy,max-age=seconds with privacy "private" under bucket auth and "public"
otherwise, no space after the comma; in particular "private,max-age=3600"
under the default configuration and "public,max-age=31536000" with bucket
auth disabled and a one-year max age. -/
theorem cache_control_format (cfg : StorageSettings) (name : String) :
    (object_put_params cfg name).CacheControl =
      (if cfg.AWS_S3_BUCKET_AUTH then "private" else "public") ++ ",max-age=" ++
        toString cfg.AWS_S3_MAX_AGE_SECONDS ∧
    (object_put_params wcfg "foo.txt").CacheControl = "private,max-age=3600" ∧
    (object_put_params
        { wcfg with AWS_S3_BUCKET_AUTH := false, AWS_S3_MAX_AGE_SECONDS := 31536000 }
        "foo.txt").CacheControl = "public,max-age=31536000" :=
  ⟨rfl, by decide, by decide⟩

/-- Claim C6, counterexample: a configuration with a non-empty public-URL
override and bucket auth enabled passes the construction-time validation of
_setup; no configuration-conflict error is raised. -/
theorem construction_conflict_counterexample :
    (setup_validate
        { AWS_S3_BUCKET_NAME := "bucket", AWS_S3_PUBLIC_URL := "/foo/",
          AWS_S3_BUCKET_AUTH := true }).isOk = true := rfl

/-- Claim C6 as amended: with a non-empty bucket name, construction always
succeeds; combining a public-URL override with bucket auth merely logs a
warning, and the warning is logged exactly in that conflicting case. -/
theorem construction_conflict_amended (s : SetupInput)
    (h : s.AWS_S3_BUCKET_NAME ≠ "") :
    setup_validate s =
      .ok (if s.AWS_S3_PUBLIC_URL != "" && s.AWS_S3_BUCKET_AUTH then
        [publicUrlBucketAuthWarning] else []) := by
  have hb : (s.AWS_S3_BUCKET_NAME == "") = false := beq_eq_false_iff_ne.mpr h
  simp only [setup_validate, hb, Bool.false_eq_true, if_false]
  split <;> rfl

/-- Witness for C6 as amended, at the conflicting configuration. -/
theorem construction_conflict_amended_witness :
    ({ AWS_S3_BUCKET_NAME := "bucket", AWS_S3_PUBLIC_URL := "/foo/",
        AWS_S3_BUCKET_AUTH := true } : SetupInput).AWS_S3_BUCKET_NAME ≠ "" ∧
    setup_validate
        { AWS_S3_BUCKET_NAME := "bucket", AWS_S3_PUBLIC_URL := "/foo/",
          AWS_S3_BUCKET_AUTH := true } = .ok [publicUrlBucketAuthWarning] :=
  ⟨by decide,
    construction_conflict_amended
      { AWS_S3_BUCKET_NAME := "bucket", AWS_S3_PUBLIC_URL := "/foo/",
        AWS_S3_BUCKET_AUTH := true } (by decide)⟩

/-- Claim C4, code-bug evaluation: size() returns the parsed uncompressed_size
for a gzip object carrying that metadata and the ContentLength when the
ContentEncoding response key or the metadata key is absent, but it returns
Python None, not an integer, when ContentEncoding is present and different
from "gzip". -/
theorem size_code_bug_evaluation :
    s3_size { ContentEncoding := some "identity", Metadata := [], ContentLength := 42 } =
      .ok none ∧
    s3_size { ContentEncoding := none, Metadata := [], ContentLength := 42 } =
      .ok (some 42) ∧
    s3_size { ContentEncoding := some "gzip",
              Metadata := [("uncompressed_size", "100")],
              ContentLength := 42 } = .ok (some 100) ∧
    s3_size { ContentEncoding := some "gzip", Metadata := [], ContentLength := 42 } =
      .ok (some 42) :=
  ⟨rfl, rfl, rfl, rfl⟩

/-- Claim C9: opening in any write mode fails with ValueError, and a
successful open yields a read-only stream positioned at offset 0. -/
theorem open_readonly (dec : Bytes → Bytes) (mode : String) (obj : Option StoredObject) :
    (isWriteMode mode = true → s3_open dec mode obj = .error .valueError) ∧
    (∀ f, s3_open dec mode obj = .ok f → f.pos = 0 ∧ f.writable = false) := by
  constructor
  · intro hw
    have hm : mode ≠ "rb" := by
      intro he
      rw [he] at hw
      exact absurd hw (by decide)
    have hne : (mode != "rb") = true := bne_iff_ne.mpr hm
    simp [s3_open, hne]
  · intro f hf
    by_cases hne : (mode != "rb") = true
    · simp [s3_open, hne] at hf
    · simp only [s3_open, hne, Bool.false_eq_true, if_false] at hf
      cases obj with
      | none => simp at hf
      | some o =>
        simp only [Except.ok.injEq] at hf
        rw [← hf]
        exact ⟨rfl, rfl⟩

/-- Witness for C9 at mode "wb" on a concrete stored object, plus a
successful read-mode open. -/
theorem open_readonly_witness :
    isWriteMode "wb" = true ∧
    s3_open (fun b => b) "wb" (some syncObjW) = .error .valueError :=
  ⟨by decide, (open_readonly (fun b => b) "wb" (some syncObjW)).1 (by decide)⟩

/-- Claim C2: when compression is attempted (gzip enabled and the content type
compressible), the gzipped body is uploaded with ContentEncoding "gzip"
exactly when the gzipped size is strictly smaller than the original size, and
otherwise the original bytes are uploaded unchanged from offset 0 with no
ContentEncoding. -/
theorem save_compression_policy (cfg : StorageSettings) (gz : Bytes → Bytes)
    (guessed : Option String) (name : String) (body : Bytes)
    (hgz : cfg.AWS_S3_GZIP = true)
    (hct : isCompressibleContentType (resolveContentType guessed) = true) :
    (((s3_save cfg gz guessed name body).params.ContentEncoding = some "gzip" ∧
        (s3_save cfg gz guessed name body).body = gz body) ↔
      (gz body).length < body.length) ∧
    (¬ (gz body).length < body.length →
      (s3_save cfg gz guessed name body).params.ContentEncoding = none ∧
      (s3_save cfg gz guessed name body).body = body ∧
      (s3_save cfg gz guessed name body).bodyPos = 0) := by
  have hgate : (cfg.AWS_S3_GZIP && isCompressibleContentType (resolveContentType guessed)) = true := by
    rw [hgz, hct]
    rfl
  by_cases h : (gz body).length < body.length <;>
    simp [s3_save, object_put_params, hgate, h]

/-- Witness for C2: a shrinking compressor triggers the gzip branch on a
four-byte body, a growing compressor leaves a one-byte body unchanged. -/
theorem save_compression_policy_witness :
    (s3_save wcfg (fun _ => [0]) (some "text/plain") "foo.txt" [7, 7, 7, 7]).params.ContentEncoding =
      some "gzip" ∧
    (s3_save wcfg (fun b => b ++ [9]) (some "text/plain") "foo.txt" [7]).params.ContentEncoding =
      none :=
  ⟨((save_compression_policy wcfg (fun _ => [0]) (some "text/plain") "foo.txt" [7, 7, 7, 7]
        rfl (by decide)).1.mpr (by decide)).1,
    ((save_compression_policy wcfg (fun b => b ++ [9]) (some "text/plain") "foo.txt" [7]
        rfl (by decide)).2 (by decide)).1⟩

/-- Claim C1: a save followed by an open of the saved name returns exactly the
original bytes, whether the write path stored the body gzip-compressed or
uncompressed, provided gzip inflation inverts gzip deflation on those bytes. -/
theorem save_open_roundtrip (cfg : StorageSettings) (gz dec : Bytes → Bytes)
    (guessed : Option String) (name : String) (body : Bytes)
    (hinv : dec (gz body) = body) :
    s3_open dec "rb" (some (storedOfPut (s3_save cfg gz guessed name body))) =
      .ok { contents := body, pos := 0, writable := false } := by
  by_cases hgate : (cfg.AWS_S3_GZIP && isCompressibleContentType (resolveContentType guessed)) = true
  · by_cases h : (gz body).length < body.length
    · simp [s3_save, storedOfPut, s3_open, object_put_params, hgate, h, hinv]
    · simp [s3_save, storedOfPut, s3_open, object_put_params, hgate, h]
  · simp [s3_save, storedOfPut, s3_open, object_put_params, hgate]

/-- Witness for C1: both branches at concrete inputs; the identity compressor
is never smaller, so the first save stores the raw bytes, while the shrinking
compressor stores the compressed form and open inflates it back. -/
theorem save_open_roundtrip_witness :
    s3_open (fun b => b) "rb"
        (some (storedOfPut (s3_save wcfg (fun b => b) (some "text/plain") "foo.txt"
          [102, 111, 111]))) =
      .ok { contents := [102, 111, 111], pos := 0, writable := false } ∧
    s3_open (fun _ => [7, 7, 7, 7]) "rb"
        (some (storedOfPut (s3_save wcfg (fun _ => [0]) (some "text/plain") "foo.txt"
          [7, 7, 7, 7]))) =
      .ok { contents := [7, 7, 7, 7], pos := 0, writable := false } :=
  ⟨save_open_roundtrip wcfg (fun b => b) (fun b => b) (some "text/plain") "foo.txt"
      [102, 111, 111] rfl,
    save_open_roundtrip wcfg (fun _ => [0]) (fun _ => [7, 7, 7, 7]) (some "text/plain") "foo.txt"
      [7, 7, 7, 7] rfl⟩

/-- Claim C3, counterexample: under a configuration whose custom metadata map
itself contains the key "uncompressed_size", the save path stores that key on
an object whose ContentEncoding is not "gzip", so the claimed equivalence
fails. -/
theorem uncompressed_size_iff_counterexample :
    ¬ ((List.lookup "uncompressed_size"
          (s3_save c3cfg (fun b => 0 :: b) (some "image/png") "img.png" [1, 2, 3]).params.Metadata).isSome ↔
        (s3_save c3cfg (fun b => 0 :: b) (some "image/png") "img.png" [1, 2, 3]).params.ContentEncoding =
          some "gzip") := by decide

/-- Claim C3 as amended: provided the configured custom metadata map does not
itself carry the key "uncompressed_size", an object written by the save path
has that metadata key present exactly when its ContentEncoding is "gzip", and
the value is then the decimal string of the original byte length. -/
theorem uncompressed_size_iff_amended (cfg : StorageSettings) (gz : Bytes → Bytes)
    (guessed : Option String) (name : String) (body : Bytes)
    (hmeta : "uncompressed_size" ∉ cfg.AWS_S3_METADATA.map Prod.fst) :
    ((List.lookup "uncompressed_size"
        (s3_save cfg gz guessed name body).params.Metadata).isSome ↔
      (s3_save cfg gz guessed name body).params.ContentEncoding = some "gzip") ∧
    (∀ v, List.lookup "uncompressed_size"
        (s3_save cfg gz guessed name body).params.Metadata = some v →
      v = toString body.length) := by
  have hnone : List.lookup "uncompressed_size"
      ((cfg.AWS_S3_METADATA).map fun kv => (kv.1, kv.2 name)) = none :=
    lookup_eval_none name "uncompressed_size" cfg.AWS_S3_METADATA hmeta
  have hany := lookup_none_any_false "uncompressed_size" _ hnone
  have happ := lookup_append_self "uncompressed_size" (toString body.length) _ hnone
  by_cases hgate : (cfg.AWS_S3_GZIP && isCompressibleContentType (resolveContentType guessed)) = true
  · by_cases h : (gz body).length < body.length
    · simp [s3_save, object_put_params, setMeta, hgate, h, hany, happ]
    · simp [s3_save, object_put_params, hgate, h, hnone]
  · simp [s3_save, object_put_params, hgate, hnone]

/-- Witness for C3 as amended, under the default configuration whose custom
metadata map is empty. -/
theorem uncompressed_size_iff_amended_witness :
    "uncompressed_size" ∉ wcfg.AWS_S3_METADATA.map Prod.fst ∧
    ((List.lookup "uncompressed_size"
        (s3_save wcfg (fun _ => [0]) (some "text/plain") "foo.txt" [7, 7, 7, 7]).params.Metadata).isSome ↔
      (s3_save wcfg (fun _ => [0]) (some "text/plain") "foo.txt" [7, 7, 7, 7]).params.ContentEncoding =
        some "gzip") :=
  ⟨by simp [wcfg],
    (uncompressed_size_iff_amended wcfg (fun _ => [0]) (some "text/plain") "foo.txt" [7, 7, 7, 7]
      (by simp [wcfg])).1⟩

/-- Claim C5: the per-object metadata sync step keeps the body bytes, the
ContentType and the ContentEncoding of the visited object unchanged; only the
policy-derived headers are rebuilt.  The backend never reports a
present-but-empty ContentEncoding header, which the hypothesis records. -/
theorem sync_meta_frame (cfg : StorageSettings) (name : String) (obj : StoredObject)
    (h : obj.ContentEncoding ≠ some "") :
    (sync_meta_object cfg name obj).body = obj.body ∧
    (sync_meta_object cfg name obj).ContentType = obj.ContentType ∧
    (sync_meta_object cfg name obj).ContentEncoding = obj.ContentEncoding := by
  refine ⟨rfl, rfl, ?_⟩
  cases hce : obj.ContentEncoding with
  | none => simp [sync_meta_object, object_put_params, hce]
  | some ce =>
    have hne : ce ≠ "" := by
      intro he
      exact h (by rw [hce, he])
    have hb : (ce != "") = true := bne_iff_ne.mpr hne
    by_cases hg : (ce == "gzip") = true
    · cases hlk : List.lookup "uncompressed_size" obj.Metadata with
      | none => simp [sync_meta_object, object_put_params, hce, hb, hg, hlk]
      | some v => simp [sync_meta_object, object_put_params, hce, hb, hg, hlk, setMeta]
    · have hg' : (ce == "gzip") = false := Bool.of_not_eq_true hg
      simp [sync_meta_object, object_put_params, hce, hb, hg']

/-- Witness for C5 on a concrete gzip-encoded object. -/
theorem sync_meta_frame_witness :
    syncObjW.ContentEncoding ≠ some "" ∧
    ((sync_meta_object wcfg "foo.txt" syncObjW).body = syncObjW.body ∧
      (sync_meta_object wcfg "foo.txt" syncObjW).ContentType = syncObjW.ContentType ∧
      (sync_meta_object wcfg "foo.txt" syncObjW).ContentEncoding = syncObjW.ContentEncoding) :=
  ⟨by decide, sync_meta_frame wcfg "foo.txt" syncObjW (by decide)⟩

/-- Claim C10: with a non-empty public-URL override, url() fails with
ValueError whenever extra parameters are supplied, otherwise it returns the
override joined with the URI-encoded name, and the outcome never depends on
the backend presigning client. -/
theorem url_public_override (cfg : StorageSettings)
    (presign₁ presign₂ : List (String × String) → Nat → String)
    (urljoinF : String → String → String) (filepathToUri : String → String)
    (stripQuery : String → String) (name : String)
    (extra_params : List (String × String))
    (hpub : cfg.AWS_S3_PUBLIC_URL ≠ "") :
    (extra_params ≠ [] →
      s3_url cfg presign₁ urljoinF filepathToUri stripQuery name extra_params =
        .error .valueError) ∧
    (extra_params = [] →
      s3_url cfg presign₁ urljoinF filepathToUri stripQuery name extra_params =
        .ok (.publicJoin (urljoinF cfg.AWS_S3_PUBLIC_URL (filepathToUri name)))) ∧
    s3_url cfg presign₁ urljoinF filepathToUri stripQuery name extra_params =
      s3_url cfg presign₂ urljoinF filepathToUri stripQuery name extra_params := by
  have hp : (cfg.AWS_S3_PUBLIC_URL != "") = true := bne_iff_ne.mpr hpub
  refine ⟨?_, ?_, ?_⟩
  · intro hep
    cases extra_params with
    | nil => exact absurd rfl hep
    | cons p tl => simp [s3_url, hp, List.isEmpty]
  · intro hep
    subst hep
    simp [s3_url, hp, List.isEmpty]
  · simp [s3_url, hp]

/-- Witness for C10 with the public override "/foo/": one call with an extra
parameter and one without, under two distinct presigning clients. -/
theorem url_public_override_witness :
    pubCfg.AWS_S3_PUBLIC_URL ≠ "" ∧
    s3_url pubCfg (fun _ _ => "presigned1") (fun a b => a ++ b) (fun n => n) (fun u => u)
        "bar.txt" [("ResponseContentDisposition", "attachment")] = .error .valueError ∧
    s3_url pubCfg (fun _ _ => "presigned1") (fun a b => a ++ b) (fun n => n) (fun u => u)
        "bar.txt" [] = .ok (.publicJoin "/foo/bar.txt") ∧
    s3_url pubCfg (fun _ _ => "presigned1") (fun a b => a ++ b) (fun n => n) (fun u => u)
        "bar.txt" [] =
      s3_url pubCfg (fun _ _ => "presigned2") (fun a b => a ++ b) (fun n => n) (fun u => u)
        "bar.txt" [] :=
  ⟨by decide,
    (url_public_override pubCfg (fun _ _ => "presigned1") (fun _ _ => "presigned2")
        (fun a b => a ++ b) (fun n => n) (fun u => u) "bar.txt"
        [("ResponseContentDisposition", "attachment")] (by decide)).1 (by decide),
    (url_public_override pubCfg (fun _ _ => "presigned1") (fun _ _ => "presigned2")
        (fun a b => a ++ b) (fun n => n) (fun u => u) "bar.txt" [] (by decide)).2.1 rfl,
    (url_public_override pubCfg (fun _ _ => "presigned1") (fun _ _ => "presigned2")
        (fun a b => a ++ b) (fun n => n) (fun u => u) "bar.txt" [] (by decide)).2.2⟩

end DjangoS3
